import Mathlib

/-!
Verification of the natural-language specification of the
`tutorial-notebooks` repository (LSST/Rubin DP0.1 tutorial Jupyter
notebooks) against its source.

The repository contains five notebooks.  Two arrive with their names
(`04_Intro_to_Butler.ipynb`, `09_Single_Star_Lightcurve_with_Butler.ipynb`);
three arrive unnamed and are identified here by their content:

* `part_000` — the source-detection tutorial (runs `CharacterizeImageTask`,
  `SourceDetectionTask`, `SourceDeblendTask`, `SingleFrameMeasurementTask`);
  called `NB.detection` below.
* `part_001` — the interactive image-display tutorial (Holoviews/Bokeh,
  TAP queries, `dataIdToString`); called `NB.display` below.
* `part_002` — the coadd/cutout tutorial (`cutout_coadd`, `createRGB`,
  `remove_figure`); called `NB.coadd` below.

The notebooks are straight-line scripts of calls into external libraries.
The embedding below records, cell by cell and in source order, the
operations that the frozen claims are about: warning-filter installation,
client-handle creation, remote data requests (with the keys of any dataId
dictionary literal passed along), pipeline-task invocations, renders,
assert statements, local-file access, and function definitions.  Each entry
is annotated with the line of the source file it embeds.
-/

namespace TutorialNotebooks

/-- The five notebooks of the repository. -/
inductive NB
  | detection
  | display
  | coadd
  | butlerIntro
  | lightcurve
deriving DecidableEq

/-- Effect of a remote request on state held by the remote service.
`readData` is a read-only data request (Butler get, registry query,
synchronous TAP search).  The `job*` effects are the calls of the TAP
asynchronous-job API demonstrated in `04_Intro_to_Butler.ipynb`:
`jobCreate` (submit_job creates a job on the server), `jobControl`
(run starts its execution), `jobRead` (url/phase/wait/fetch_result/
retrieve_query only observe it), `jobDelete` (delete removes it). -/
inductive RemoteEffect
  | readData
  | jobCreate
  | jobControl
  | jobRead
  | jobDelete
deriving DecidableEq

/-- One operation performed by a notebook cell, in source order.
`remote` carries the handle variable the request is issued with, the
method, its effect on the remote service, and the keys of the dataId
dictionary literal passed to the call (empty when the call takes no
dataId literal constructed in this repository). -/
inductive Op
  | warnFilter (category : String)
  | newHandle (name : String)
  | remote (handle : String) (method : String) (effect : RemoteEffect)
      (dataIdKeys : List String)
  | taskRun (taskName : String)
  | renderRaw (lib : String)
  | renderTaskResult (lib : String)
  | assertCheck (cond : String)
  | raiseIfErrorCall
  | catchClause
  | readLocalFile (path : String)
  | writeLocalFile (path : String)
  | defFun (name : String)
  | threadPrimitive (name : String)
deriving DecidableEq

/-- Operations of the source-detection notebook (`src/unnamed/part_000`),
with the source line of each entry. -/
def detectionOps : List Op :=
  [ .warnFilter "UserWarning"                                    -- line 101
  , .warnFilter "FutureWarning"                                  -- line 102
  , .newHandle "butler"                                          -- line 152
  , .remote "butler" "get calexp" .readData
      ["visit", "detector"]                                      -- line 153 (dataId literal at line 145)
  , .renderRaw "afwDisplay"                                      -- line 219
  , .remote "butler" "get calexpBackground" .readData
      ["visit", "detector"]                                      -- line 237
  , .renderRaw "afwDisplay"                                      -- line 256
  , .renderRaw "afwDisplay"                                      -- line 286
  , .renderRaw "afwDisplay"                                      -- line 343 (local cutout via calexp.Factory)
  , .taskRun "CharacterizeImageTask"                             -- line 509
  , .taskRun "SourceDetectionTask"                               -- line 544
  , .taskRun "SourceDeblendTask"                                 -- line 647
  , .taskRun "SingleFrameMeasurementTask"                        -- line 650
  , .renderTaskResult "afwDisplay"                               -- line 696 (detected sources overlay)
  , .renderTaskResult "matplotlib"                               -- line 817 (heavy footprint pixels)
  , .renderTaskResult "matplotlib"                               -- line 867 (footprint mask)
  ]

/-- Operations of the interactive image-display notebook
(`src/unnamed/part_001`), with the source line of each entry. -/
def displayOps : List Op :=
  [ .warnFilter "UserWarning"                                    -- line 115
  , .newHandle "butler"                                          -- line 155
  , .remote "butler" "get calexp" .readData
      ["visit", "detector", "band"]                              -- line 173 (calexpId literal at line 172)
  , .assertCheck "calexp is not None"                            -- line 174
  , .remote "butler" "get src" .readData
      ["visit", "detector", "band"]                              -- line 187
  , .remote "butler" "get deepCoadd" .readData
      ["tract", "patch", "band"]                                 -- line 198 (coaddId literal at line 197)
  , .assertCheck "coadd is not None"                             -- line 199
  , .remote "butler" "get deepCoadd_forced_src" .readData
      ["tract", "patch", "band"]                                 -- line 229
  , .defFun "dataIdToString"                                     -- line 320
  , .renderRaw "holoviews"                                       -- line 334
  , .renderRaw "holoviews"                                       -- line 395
  , .renderRaw "holoviews"                                       -- line 448
  , .renderRaw "holoviews"                                       -- line 490
  , .warnFilter "UnitsWarning"                                   -- line 637
  , .newHandle "service"                                         -- line 660
  , .remote "service" "search" .readData []                      -- line 680
  , .remote "service" "search" .readData []                      -- line 705
  , .remote "service" "search" .readData []                      -- line 723
  , .remote "service" "search" .readData []                      -- line 778
  , .renderRaw "matplotlib"                                      -- line 883
  , .warnFilter "UserWarning"                                    -- line 1067
  , .newHandle "butler"                                          -- line 1097
  , .remote "butler" "get calexp" .readData
      ["visit", "detector", "band"]                              -- line 1100 (dataId literal at line 1091)
  , .remote "butler" "get src" .readData
      ["visit", "detector", "band"]                              -- line 1256
  , .remote "butler" "get deepCoadd_calexp" .readData
      ["tract", "patch", "band"]                                 -- line 1347 (dataId_coadd literal at line 1344)
  , .remote "butler" "get deepCoadd_forced_src" .readData
      ["tract", "patch", "band"]                                 -- line 1363
  , .remote "butler" "get deepCoadd_ref" .readData
      ["tract", "patch", "band"]                                 -- line 1364
  , .newHandle "butler"                                          -- line 2047
  , .remote "butler" "get skyMap" .readData []                   -- line 2086
  , .remote "butler" "get deepCoadd" .readData
      ["band", "tract", "patch"]                                 -- line 2123 (dataId literal at line 2122)
  ]

/-- Operations of the coadd/cutout notebook (`src/unnamed/part_002`),
with the source line of each entry.  Calls of the locally defined
`cutout_coadd` are expanded into the Butler reads its body issues
(lines 539 and 551 of the definition): every call site leaves the
`skymap` parameter at its `None` default, so each call reads the skyMap
and then the coadd cutout. -/
def coaddOps : List Op :=
  [ .warnFilter "UserWarning"                                    -- line 94
  , .defFun "remove_figure"                                      -- line 110
  , .newHandle "butler"                                          -- line 210
  , .remote "butler" "get calexp" .readData
      ["visit", "detector", "band"]                              -- line 213 (dataId literal at line 204)
  , .renderRaw "afwDisplay"                                      -- line 264
  , .renderRaw "matplotlib"                                      -- line 297
  , .renderRaw "afwDisplay"                                      -- line 329
  , .renderRaw "afwDisplay"                                      -- line 332
  , .renderRaw "afwDisplay"                                      -- line 354
  , .renderRaw "afwDisplay"                                      -- line 404
  , .defFun "cutout_coadd"                                       -- line 507
  , .remote "butler" "get deepCoadd_calexp" .readData
      ["tract", "patch", "band"]                                 -- line 574 (dataId literal at line 571)
  , .renderRaw "afwDisplay"                                      -- line 590
  , .remote "butler" "get skyMap" .readData []                   -- line 647 call, body line 539
  , .remote "butler" "get deepCoadd" .readData
      ["tract", "patch", "band"]                                 -- line 647 call, body line 551
  , .renderRaw "afwDisplay"                                      -- line 661
  , .defFun "createRGB"                                          -- line 693
  , .remote "butler" "get skyMap" .readData []                   -- line 768 call (band g), body line 539
  , .remote "butler" "get deepCoadd" .readData
      ["tract", "patch", "band"]                                 -- line 768 call, body line 551
  , .remote "butler" "get skyMap" .readData []                   -- line 770 call (band r), body line 539
  , .remote "butler" "get deepCoadd" .readData
      ["tract", "patch", "band"]                                 -- line 770 call, body line 551
  , .remote "butler" "get skyMap" .readData []                   -- line 772 call (band i), body line 539
  , .remote "butler" "get deepCoadd" .readData
      ["tract", "patch", "band"]                                 -- line 772 call, body line 551
  , .renderRaw "matplotlib"                                      -- line 799
  , .renderRaw "matplotlib"                                      -- line 806
  ]

/-- Operations of `src/04_Intro_to_Butler.ipynb`, with the source line
of each entry.  The `cutout_coadd` call at line 759 is expanded into the
two Butler reads of the function body (lines 734 and 746); the TAP
asynchronous-job section (lines 1810 to 1904) is recorded call by call. -/
def butlerIntroOps : List Op :=
  [ .warnFilter "UserWarning"                                    -- line 85
  , .newHandle "butler"                                          -- line 120
  , .remote "butler" "registry queryCollections" .readData []    -- line 170
  , .remote "butler" "registry queryCollections" .readData []    -- line 200
  , .newHandle "butler"                                          -- line 219
  , .remote "butler" "registry queryDatasetTypes" .readData []   -- line 241
  , .remote "butler" "registry queryDatasets" .readData []       -- line 299
  , .remote "butler" "registry queryDatasets" .readData []       -- line 351
  , .remote "butler" "registry queryDimensionRecords" .readData [] -- line 382
  , .remote "butler" "registry queryDimensionRecords" .readData [] -- line 421
  , .remote "butler" "registry queryDatasets" .readData []       -- line 442
  , .remote "butler" "get calexp" .readData
      ["visit", "detector", "band"]                              -- line 602 (dataId literal at line 601)
  , .renderRaw "afwDisplay"                                      -- line 627
  , .remote "butler" "get src" .readData
      ["visit", "detector", "band"]                              -- line 650
  , .renderRaw "afwDisplay"                                      -- line 674
  , .defFun "cutout_coadd"                                       -- line 701
  , .remote "butler" "get skyMap" .readData []                   -- line 759 call, body line 734
  , .remote "butler" "get deepCoadd" .readData
      ["tract", "patch", "band"]                                 -- line 759 call, body line 746 (coaddId literal at line 743)
  , .renderRaw "afwDisplay"                                      -- line 772
  , .remote "butler" "get deepCoadd_forced_src_schema" .readData [] -- line 795
  , .remote "butler" "get skyMap" .readData []                   -- line 889
  , .remote "butler" "get deepCoadd_forced_src" .readData
      ["tract", "patch", "band"]                                 -- line 901 (coaddId literal at line 899)
  , .renderRaw "matplotlib"                                      -- line 976
  , .warnFilter "UnitsWarning"                                   -- line 1105
  , .defFun "sort_dataframe"                                     -- line 1122
  , .newHandle "service"                                         -- line 1154
  , .assertCheck "service is not None"                           -- line 1156
  , .assertCheck "service.baseurl is the data.lsst.cloud TAP URL" -- line 1157
  , .remote "service" "search" .readData []                      -- line 1179
  , .remote "service" "search" .readData []                      -- line 1192
  , .remote "service" "search" .readData []                      -- line 1247
  , .remote "service" "search" .readData []                      -- line 1313
  , .assertCheck "len results equals max_rec"                    -- line 1314
  , .remote "service" "search" .readData []                      -- line 1329
  , .assertCheck "len results1 equals max_rec"                   -- line 1330
  , .assertCheck "assert_frame_equal of the two maxrec results"  -- line 1341
  , .remote "service" "search" .readData []                      -- line 1393
  , .assertCheck "len results equals 15670"                      -- line 1396
  , .remote "service" "search" .readData []                      -- line 1440
  , .assertCheck "len results equals 14424"                      -- line 1441
  , .remote "service" "search" .readData []                      -- line 1493
  , .remote "service" "submit_job" .jobCreate []                 -- line 1810
  , .remote "job" "url" .jobRead []                              -- line 1813
  , .remote "job" "phase" .jobRead []                            -- line 1816
  , .remote "job" "run" .jobControl []                           -- line 1827
  , .remote "job" "wait" .jobRead []                             -- line 1839
  , .remote "job" "phase" .jobRead []                            -- line 1840
  , .raiseIfErrorCall                                            -- line 1850
  , .remote "job" "fetch_result" .jobRead []                     -- line 1860
  , .assertCheck "len async_results equals 14424"                -- line 1864
  , .assertCheck "assert_frame_equal of sync and async results"  -- line 1865
  , .remote "job" "retrieve_query" .jobRead []                   -- line 1883
  , .remote "job" "fetch_result" .jobRead []                     -- line 1884
  , .assertCheck "len retrieved_results equals 14424"            -- line 1885
  , .assertCheck "assert_frame_equal of retrieved and async results" -- line 1886
  , .remote "job" "delete" .jobDelete []                         -- line 1904
  ]

/-- Operations of `src/09_Single_Star_Lightcurve_with_Butler.ipynb`,
with the source line of each entry.  The per-visit Butler retrieval loop
(lines 383 to 449) and the optional local write (line 513) are entirely
commented out in the source, so they contribute no operation. -/
def lightcurveOps : List Op :=
  [ .newHandle "butler"                                          -- line 111
  , .remote "butler" "registry queryDatasets" .readData []       -- line 277
  , .readLocalFile "data/timeseries_rband.fits"                  -- line 533
  , .renderRaw "matplotlib"                                      -- line 570
  , .renderRaw "matplotlib"                                      -- line 651
  , .renderRaw "matplotlib"                                      -- line 745
  ]

/-- The whole corpus: every notebook paired with its operations. -/
def corpusOps : List (NB × List Op) :=
  [ (NB.detection, detectionOps)
  , (NB.display, displayOps)
  , (NB.coadd, coaddOps)
  , (NB.butlerIntro, butlerIntroOps)
  , (NB.lightcurve, lightcurveOps)
  ]

/-! Predicates on operations. -/

/-- An exception-catching construct (Python try/except). -/
def Op.isCatch : Op → Bool
  | .catchClause => true
  | _ => false

/-- A validity check of the notebook itself that raises on failure:
an assert statement (including assert_frame_equal) or job.raise_if_error. -/
def Op.isValidityCheck : Op → Bool
  | .assertCheck _ => true
  | .raiseIfErrorCall => true
  | _ => false

/-- Whether the operation leaves all state held by the remote service
unchanged.  Local operations trivially do. -/
def Op.isRemoteReadOnly : Op → Bool
  | .remote _ _ .readData _ => true
  | .remote _ _ .jobRead _ => true
  | .remote _ _ .jobCreate _ => false
  | .remote _ _ .jobControl _ => false
  | .remote _ _ .jobDelete _ => false
  | _ => true

/-- Whether the operation belongs to the TAP asynchronous-job API. -/
def Op.isAsyncJobOp : Op → Bool
  | .remote _ _ .jobCreate _ => true
  | .remote _ _ .jobControl _ => true
  | .remote _ _ .jobRead _ => true
  | .remote _ _ .jobDelete _ => true
  | _ => false

/-- Whether the operation is one of the four asynchronous-job lifecycle
calls named by the specification. -/
def Op.isCoreAsyncLifecycle : Op → Bool
  | .remote _ m _ _ =>
      m = "submit_job" || m = "run" || m = "wait" || m = "fetch_result"
  | _ => false

/-- Method name of a remote operation (empty for local operations). -/
def Op.methodName : Op → String
  | .remote _ m _ _ => m
  | _ => ""

/-- The dataId dictionary keys the operation passes to Butler.get. -/
def Op.dataIdKeys : Op → List String
  | .remote _ _ _ ks => ks
  | _ => []

/-- A concurrency or parallelism primitive (threads, locks, asyncio,
multiprocessing).  None occurs anywhere in the corpus. -/
def Op.isThreadPrimitive : Op → Bool
  | .threadPrimitive _ => true
  | _ => false

/-- A read or write of a local persisted file. -/
def Op.isLocalPersistence : Op → Bool
  | .readLocalFile _ => true
  | .writeLocalFile _ => true
  | _ => false

/-- The dataId keys the spec allows:
visit, detector, band, tract, patch. -/
def allowedDataIdKeys : List String :=
  ["visit", "detector", "band", "tract", "patch"]

/-! Sequencing check for claim C6: scanning the operations in source
order, a remote request must use a handle created earlier (the job
handle comes into scope when submit_job creates the job), a pipeline
task may only run after some data request, and a render of task results
may only follow a task invocation. -/

/-- Step-order scan.  `hs` is the set of handles in scope, `seenReq`
whether a data request has already been issued, `seenTask` whether a
pipeline task has already run. -/
def stepOrderGo : List Op → List String → Bool → Bool → Bool
  | [], _, _, _ => true
  | op :: rest, hs, seenReq, seenTask =>
    match op with
    | .newHandle h => stepOrderGo rest (h :: hs) seenReq seenTask
    | .remote h _ e _ =>
        hs.contains h &&
        stepOrderGo rest
          (match e with
            | .jobCreate => "job" :: hs
            | _ => hs)
          true seenTask
    | .taskRun _ => seenReq && stepOrderGo rest hs seenReq true
    | .renderTaskResult _ => seenTask && stepOrderGo rest hs seenReq seenTask
    | _ => stepOrderGo rest hs seenReq seenTask

/-- A notebook is well-sequenced when its scan succeeds from the empty
initial state. -/
def stepOrderOk (ops : List Op) : Bool :=
  stepOrderGo ops [] false false

/-! Aggregate predicates used by the claims. -/

/-- Formalisation of claim C2 as stated: the only error handling in the
corpus is warning suppression — no catch and no validity check of the
notebooks themselves. -/
def onlyWarnSuppression : Bool :=
  corpusOps.all fun p => p.2.all fun op =>
    !(op.isCatch) && !(op.isValidityCheck)

/-- No notebook catches exceptions. -/
def noCatchAnywhere : Bool :=
  corpusOps.all fun p => p.2.all fun op => !(op.isCatch)

/-- Formalisation of claim C3 as stated: every notebook operation leaves
remote-service state unchanged. -/
def allRemoteReadOnly : Bool :=
  corpusOps.all fun p => p.2.all fun op => op.isRemoteReadOnly

/-- Formalisation of claim C7 as stated: no notebook reads or writes a
local persisted artifact. -/
def noLocalPersistence : Bool :=
  corpusOps.all fun p => p.2.all fun op => !(op.isLocalPersistence)

/-! Deep embedding of the Python functions defined in the repository,
for claim C1.  Expressions distinguish references to parameters, local
variables and literals from calls into external libraries, attribute
and subscript access, operator applications and dictionary literals;
method calls are recorded as external calls whose name spells the
receiver expression. -/

/-- A Python expression as it occurs in the repository's function
bodies. -/
inductive PExpr
  | param (name : String)
  | localV (name : String)
  | lit (txt : String)
  | extCall (fn : String) (args : List PExpr)
  | attr (receiver : PExpr) (field : String)
  | subscriptE (receiver : PExpr) (index : PExpr)
  | binop (op : String) (a b : PExpr)
  | dictLit (entries : List (String × PExpr))

/-- A Python statement as it occurs in the repository's function
bodies.  `whileStmt` is included so that its absence from every body is
a checkable fact rather than a gap in the grammar. -/
inductive PStmt
  | assign (lhs : String) (rhs : PExpr)
  | exprStmt (e : PExpr)
  | ifStmt (cond : PExpr) (thenB elseB : List PStmt)
  | forStmt (v : String) (iter : PExpr) (body : List PStmt)
  | whileStmt (cond : PExpr) (body : List PStmt)
  | ret (e : PExpr)

/-- A function definition of the repository. -/
structure PFun where
  name : String
  params : List String
  body : List PStmt

/-- Body of `cutout_coadd`, identical (line for line of code) in
`src/04_Intro_to_Butler.ipynb` lines 701 to 748 and
`src/unnamed/part_002` lines 507 to 553. -/
def cutoutCoaddBody : List PStmt :=
  [ .assign "radec" (.extCall "geom.SpherePoint"
      [.param "ra", .param "dec", .lit "geom.degrees"])
  , .assign "cutoutSize" (.extCall "geom.ExtentI"
      [.param "cutoutSideLength", .param "cutoutSideLength"])
  , .ifStmt (.binop "is" (.param "skymap") (.lit "None"))
      [.assign "skymap" (.extCall "butler.get" [.lit "skyMap"])] []
  , .assign "tractInfo" (.extCall "skymap.findTract" [.localV "radec"])
  , .assign "patchInfo" (.extCall "tractInfo.findPatch" [.localV "radec"])
  , .assign "xy" (.extCall "geom.PointI"
      [.extCall "tractInfo.getWcs().skyToPixel" [.localV "radec"]])
  , .assign "bbox" (.extCall "geom.BoxI"
      [ .binop "-" (.localV "xy")
          (.binop "//" (.localV "cutoutSize") (.lit "2"))
      , .localV "cutoutSize" ])
  , .assign "patch"
      (.extCall "tractInfo.getSequentialPatchIndex" [.localV "patchInfo"])
  , .assign "coaddId" (.dictLit
      [ ("tract", .extCall "tractInfo.getId" [])
      , ("patch", .localV "patch")
      , ("band", .param "band") ])
  , .assign "parameters" (.dictLit [("bbox", .localV "bbox")])
  , .assign "cutout_image" (.extCall "butler.get"
      [.param "datasetType", .localV "parameters", .localV "coaddId"])
  , .ret (.localV "cutout_image")
  ]

/-- Body of `createRGB`, `src/unnamed/part_002` lines 693 to 743. -/
def createRGBBody : List PStmt :=
  [ .ifStmt (.binop "==" (.extCall "len" [.param "image"]) (.lit "3"))
      [.assign "bgr" (.attr (.param "image") "filters")] []
  , .ifStmt (.binop "is" (.param "scale") (.lit "None"))
      [ .assign "r_im" (.attr (.subscriptE (.param "image")
          (.subscriptE (.param "bgr") (.lit "2"))) "array")
      , .assign "g_im" (.attr (.subscriptE (.param "image")
          (.subscriptE (.param "bgr") (.lit "1"))) "array")
      , .assign "b_im" (.attr (.subscriptE (.param "image")
          (.subscriptE (.param "bgr") (.lit "0"))) "array") ]
      [ .assign "r_im" (.binop "*" (.attr (.subscriptE (.param "image")
          (.subscriptE (.param "bgr") (.lit "2"))) "array")
          (.subscriptE (.param "scale") (.lit "0")))
      , .assign "g_im" (.binop "*" (.attr (.subscriptE (.param "image")
          (.subscriptE (.param "bgr") (.lit "1"))) "array")
          (.subscriptE (.param "scale") (.lit "1")))
      , .assign "b_im" (.binop "*" (.attr (.subscriptE (.param "image")
          (.subscriptE (.param "bgr") (.lit "0"))) "array")
          (.subscriptE (.param "scale") (.lit "2"))) ]
  , .assign "rgb" (.extCall "make_lupton_rgb"
      [ .localV "r_im", .localV "g_im", .localV "b_im"
      , .param "stretch", .param "Q" ])
  , .ret (.localV "rgb")
  ]

/-- Body of `sort_dataframe`, `src/04_Intro_to_Butler.ipynb` lines 1122
to 1125. -/
def sortDataframeBody : List PStmt :=
  [ .assign "df" (.extCall "df.sort_values" [.lit "objectId"])
  , .exprStmt (.extCall "df.set_index"
      [ .extCall "np.array" [.extCall "range" [.extCall "len" [.param "df"]]]
      , .lit "inplace=True" ])
  , .ret (.param "df")
  ]

/-- Body of `dataIdToString`, `src/unnamed/part_001` lines 320 to 325. -/
def dataIdToStringBody : List PStmt :=
  [ .assign "title" (.lit "DC2 image: ")
  , .forStmt "key, value" (.extCall "dataId.items" [])
      [ .assign "title" (.binop "+" (.localV "title")
          (.binop "+"
            (.binop "+"
              (.binop "+" (.extCall "str" [.localV "key"]) (.lit ": "))
              (.extCall "str" [.localV "value"]))
            (.lit " "))) ]
  , .ret (.extCall "title.strip" [])
  ]

/-- Body of `remove_figure`, `src/unnamed/part_002` lines 110 to 118. -/
def removeFigureBody : List PStmt :=
  [ .forStmt "ax" (.extCall "fig.get_axes" [])
      [ .forStmt "im" (.extCall "ax.get_images" [])
          [.exprStmt (.extCall "im.remove" [])] ]
  , .exprStmt (.extCall "fig.clf" [])
  , .exprStmt (.extCall "plt.close" [.param "fig"])
  , .exprStmt (.extCall "gc.collect" [])
  ]

/-- Every function the repository defines, with its parameter list. -/
def repoFunctions : List PFun :=
  [ ⟨"cutout_coadd (04_Intro_to_Butler)",
      ["butler", "ra", "dec", "band", "datasetType", "skymap",
       "cutoutSideLength"], cutoutCoaddBody⟩
  , ⟨"cutout_coadd (part_002)",
      ["butler", "ra", "dec", "band", "datasetType", "skymap",
       "cutoutSideLength"], cutoutCoaddBody⟩
  , ⟨"createRGB", ["image", "bgr", "stretch", "Q", "scale"], createRGBBody⟩
  , ⟨"sort_dataframe", ["df", "sort_key"], sortDataframeBody⟩
  , ⟨"dataIdToString", ["dataId"], dataIdToStringBody⟩
  , ⟨"remove_figure", ["fig"], removeFigureBody⟩
  ]

/-- Names under which the repository's own functions are callable. -/
def repoFunNames : List String :=
  ["cutout_coadd", "createRGB", "sort_dataframe", "dataIdToString",
   "remove_figure"]

/-- An argument that merely forwards a parameter or passes a constant. -/
def simpleArg : PExpr → Bool
  | .param _ => true
  | .lit _ => true
  | _ => false

/-- Claim C1 reading of a function body: a single return of one external
call whose arguments are parameters or constants, with no computation of
its own. -/
def isDirectForwarding (f : PFun) : Bool :=
  match f.body with
  | [PStmt.ret (PExpr.extCall _ args)] => args.all simpleArg
  | _ => false

mutual

/-- Every call inside the expression targets an external library, never
a function defined in this repository. -/
def exprExternalOnly : PExpr → Bool
  | .param _ => true
  | .localV _ => true
  | .lit _ => true
  | .extCall fn args => !(repoFunNames.contains fn) && exprsExternalOnly args
  | .attr r _ => exprExternalOnly r
  | .subscriptE r i => exprExternalOnly r && exprExternalOnly i
  | .binop _ a b => exprExternalOnly a && exprExternalOnly b
  | .dictLit es => entriesExternalOnly es

/-- Pointwise `exprExternalOnly` over an argument list. -/
def exprsExternalOnly : List PExpr → Bool
  | [] => true
  | e :: es => exprExternalOnly e && exprsExternalOnly es

/-- Pointwise `exprExternalOnly` over dictionary entries. -/
def entriesExternalOnly : List (String × PExpr) → Bool
  | [] => true
  | (_, e) :: es => exprExternalOnly e && entriesExternalOnly es

end

mutual

/-- The statement is glue only: straight-line assignments, conditionals
and container loops around external calls — no while loop, and no call
into a repository-defined function. -/
def stmtGlueOnly : PStmt → Bool
  | .assign _ e => exprExternalOnly e
  | .exprStmt e => exprExternalOnly e
  | .ifStmt c t e => exprExternalOnly c && stmtsGlueOnly t && stmtsGlueOnly e
  | .forStmt _ it b => exprExternalOnly it && stmtsGlueOnly b
  | .whileStmt _ _ => false
  | .ret e => exprExternalOnly e

/-- Pointwise `stmtGlueOnly` over a statement list. -/
def stmtsGlueOnly : List PStmt → Bool
  | [] => true
  | s :: ss => stmtGlueOnly s && stmtsGlueOnly ss

end

/-- A function is glue only when its whole body is. -/
def funGlueOnly (f : PFun) : Bool :=
  stmtsGlueOnly f.body

/-! Semantic embedding of the two `cutout_coadd` definitions for claim
C8.  The external LSST geometry, skymap and Butler operations the
function composes are abstract: they are fields of `LsstGeomAPI` and
`ButlerT`, so the embedded functions record exactly which external
operations each source version applies, to which arguments, and in
which order. -/

/-- The external LSST operations `cutout_coadd` uses, as an abstract
interface: types for floats, sphere points, integer extents, points,
boxes, skymaps, tracts, patches, tract identifiers, patch indices and
images, and the operations the source calls on them. -/
structure LsstGeomAPI where
  Flt : Type
  SpherePt : Type
  ExtI : Type
  PtI : Type
  BoxI : Type
  SkyMapT : Type
  TractT : Type
  PatchT : Type
  TractId : Type
  PatchIdx : Type
  ImgT : Type
  spherePointDeg : Flt → Flt → SpherePt
  extentI : Flt → Flt → ExtI
  extFloorDivTwo : ExtI → ExtI
  ptSubExt : PtI → ExtI → PtI
  boxI : PtI → ExtI → BoxI
  findTract : SkyMapT → SpherePt → TractT
  findPatch : TractT → SpherePt → PatchT
  wcsSkyToPixelPtI : TractT → SpherePt → PtI
  getId : TractT → TractId
  getSequentialPatchIndex : TractT → PatchT → PatchIdx

/-- The coaddId dictionary built by `cutout_coadd`: keys tract, patch,
band. -/
structure CoaddDataId (A : LsstGeomAPI) where
  tract : A.TractId
  patch : A.PatchIdx
  band : String

/-- The Butler as `cutout_coadd` uses it: a skyMap read and a
parameterised get with a bbox and a dataId. -/
structure ButlerT (A : LsstGeomAPI) where
  getSkyMap : A.SkyMapT
  getWithBBox : String → A.BoxI → CoaddDataId A → A.ImgT

/-- Everything a `cutout_coadd` run produces: the bounding box and
coaddId it constructs, the datasetType of the butler.get call it
issues, and the image that call returns. -/
structure CutoutResult (A : LsstGeomAPI) where
  bbox : A.BoxI
  coaddId : CoaddDataId A
  datasetTypeUsed : String
  image : A.ImgT

/-- `cutout_coadd` of `src/04_Intro_to_Butler.ipynb` lines 701 to 748,
step by step: build the sphere point and the square extent, read the
skyMap from the Butler when none is passed, find tract and patch,
convert the sky position to an integer pixel point via the tract WCS,
build the box from the half-size-shifted corner and the extent, build
the coaddId, and issue the butler.get. -/
def cutout_coadd_intro (A : LsstGeomAPI) (butler : ButlerT A)
    (ra dec : A.Flt) (band : String) (datasetType : String)
    (skymap : Option A.SkyMapT) (cutoutSideLength : A.Flt) :
    CutoutResult A :=
  let radec := A.spherePointDeg ra dec
  let cutoutSize := A.extentI cutoutSideLength cutoutSideLength
  let skymap := match skymap with
    | none => butler.getSkyMap
    | some s => s
  let tractInfo := A.findTract skymap radec
  let patchInfo := A.findPatch tractInfo radec
  let xy := A.wcsSkyToPixelPtI tractInfo radec
  let bbox := A.boxI (A.ptSubExt xy (A.extFloorDivTwo cutoutSize)) cutoutSize
  let patch := A.getSequentialPatchIndex tractInfo patchInfo
  let coaddId : CoaddDataId A := ⟨A.getId tractInfo, patch, band⟩
  let cutout_image := butler.getWithBBox datasetType bbox coaddId
  ⟨bbox, coaddId, datasetType, cutout_image⟩

/-- `cutout_coadd` of `src/unnamed/part_002` lines 507 to 553, embedded
independently from that source text; the code lines coincide with the
other version, only the docstring differs. -/
def cutout_coadd_part002 (A : LsstGeomAPI) (butler : ButlerT A)
    (ra dec : A.Flt) (band : String) (datasetType : String)
    (skymap : Option A.SkyMapT) (cutoutSideLength : A.Flt) :
    CutoutResult A :=
  let radec := A.spherePointDeg ra dec
  let cutoutSize := A.extentI cutoutSideLength cutoutSideLength
  let skymap := match skymap with
    | none => butler.getSkyMap
    | some s => s
  let tractInfo := A.findTract skymap radec
  let patchInfo := A.findPatch tractInfo radec
  let xy := A.wcsSkyToPixelPtI tractInfo radec
  let bbox := A.boxI (A.ptSubExt xy (A.extFloorDivTwo cutoutSize)) cutoutSize
  let patch := A.getSequentialPatchIndex tractInfo patchInfo
  let coaddId : CoaddDataId A := ⟨A.getId tractInfo, patch, band⟩
  let cutout_image := butler.getWithBBox datasetType bbox coaddId
  ⟨bbox, coaddId, datasetType, cutout_image⟩

/-! Model of `lsst.geom.Box2I` for claim C9.  Box2I is external to this
repository; it is modelled from the LSST geom documentation: an integer
box stores inclusive minimum and maximum corners (so a box whose
corners coincide contains exactly one pixel and has width 1); a
default-constructed box is empty; `include(point)` grows the box to the
smallest box containing it and the point; the constructor from a
minimum point and an `Extent2I` of dimensions `(w, h)` with positive
components produces the box with that minimum whose width is `w` and
height is `h`, hence maximum `(min.x + w - 1, min.y + h - 1)`; a zero
dimension gives the empty box and a negative dimension inverts the
corner. -/

/-- An integer box: empty, or inclusive corners. -/
inductive Box2I
  | empty
  | box (minX minY maxX maxY : Int)
deriving DecidableEq

/-- `Box2I.include(Point2I(x, y))`: grow to contain the point. -/
def Box2I.includePoint : Box2I → Int → Int → Box2I
  | .empty, x, y => .box x y x y
  | .box a b c d, x, y => .box (min a x) (min b y) (max c x) (max d y)

/-- One axis of the minimum/dimensions constructor: the inclusive
interval spanned by a corner and a signed pixel count. -/
def intervalFromDim (m w : Int) : Int × Int :=
  if 0 < w then (m, m + w - 1) else (m + w + 1, m)

/-- `Box2I(Point2I(mx, my), Extent2I(w, h))`: box from its minimum
corner and pixel dimensions. -/
def Box2I.fromMinAndDims (mx my w h : Int) : Box2I :=
  if w = 0 ∨ h = 0 then .empty
  else .box (intervalFromDim mx w).1 (intervalFromDim my h).1
            (intervalFromDim mx w).2 (intervalFromDim my h).2

/-- Width of a box in pixels (inclusive corners). -/
def Box2I.getWidth : Box2I → Int
  | .empty => 0
  | .box a _ c _ => c - a + 1

/-- Height of a box in pixels (inclusive corners). -/
def Box2I.getHeight : Box2I → Int
  | .empty => 0
  | .box _ b _ d => d - b + 1

/-- The cutout region as built in `src/unnamed/part_000` lines 322 to
324: an empty box grown by two include calls. -/
def bboxViaInclude (xmin ymin width height : Int) : Box2I :=
  ((Box2I.empty.includePoint xmin ymin).includePoint
    (xmin + width) (ymin + height))

/-- The cutout region as written in the commented alternative at
`src/unnamed/part_000` line 327: the minimum/dimensions constructor. -/
def bboxViaCtor (xmin ymin width height : Int) : Box2I :=
  Box2I.fromMinAndDims xmin ymin width height

/-! Model of `sort_dataframe` on dataframes for claim C10.  A dataframe
is a list of rows, each carrying its index label, its objectId column
and the remaining columns; `set_index(np.array(range(len(df))))` is
relabelling the rows 0, 1, ... in order.  `pandas.DataFrame.sort_values`
on one column is modelled only by its documented contract — the output
is sorted by that column and is a permutation of the input rows — since
the source leaves the default kind=quicksort, which the pandas
documentation does not promise to be stable (only kind mergesort/stable
are): the relative order of rows with equal objectId after sorting is
unspecified, so any routine satisfying the contract is an admissible
model of the call. -/

/-- A dataframe with an objectId column: rows of
(index label, objectId, other columns). -/
structure DFrame (α : Type) where
  rows : List (Int × Int × α)
deriving DecidableEq

/-- The objectId of a row. -/
def rowKey {α : Type} (r : Int × Int × α) : Int :=
  r.2.1

/-- The index label of a row. -/
def rowLabel {α : Type} (r : Int × Int × α) : Int :=
  r.1

/-- Comparison of rows by the objectId column. -/
def rowLE {α : Type} (a b : Int × Int × α) : Prop :=
  rowKey a ≤ rowKey b

instance {α : Type} : DecidableRel (@rowLE α) :=
  fun a b => Int.decLe (rowKey a) (rowKey b)

instance {α : Type} : IsTotal (Int × Int × α) rowLE :=
  ⟨fun a b => Int.le_total (rowKey a) (rowKey b)⟩

instance {α : Type} : IsTrans (Int × Int × α) rowLE :=
  ⟨fun _ _ _ => Int.le_trans⟩

/-- Strict comparison of rows by the objectId column. -/
def rowLT {α : Type} (a b : Int × Int × α) : Prop :=
  rowKey a < rowKey b

instance {α : Type} : IsAntisymm (Int × Int × α) rowLT :=
  ⟨fun _ _ h1 h2 => absurd (lt_trans h1 h2) (lt_irrefl _)⟩

/-- An admissible model of `df.sort_values("objectId")` with the default
kind: a deterministic routine whose output is sorted by the objectId
column and is a permutation of the input rows.  Stability is
deliberately NOT required, because pandas does not guarantee it for the
default quicksort kind the source uses. -/
structure SortRoutine (α : Type) where
  sortRows : List (Int × Int × α) → List (Int × Int × α)
  sorted_sortRows : ∀ l, (sortRows l).Pairwise rowLE
  perm_sortRows : ∀ l, (sortRows l).Perm l

/-- Comparison by objectId ascending, ties broken by index label
descending: a total transitive order used to build an admissible but
unstable-on-ties sorting routine. -/
def rowLEByKeyLabelDesc {α : Type} (a b : Int × Int × α) : Prop :=
  rowKey a < rowKey b ∨ (rowKey a = rowKey b ∧ rowLabel b ≤ rowLabel a)

instance {α : Type} : DecidableRel (@rowLEByKeyLabelDesc α) :=
  fun a b => inferInstanceAs (Decidable
    (rowKey a < rowKey b ∨ (rowKey a = rowKey b ∧ rowLabel b ≤ rowLabel a)))

instance {α : Type} : IsTotal (Int × Int × α) rowLEByKeyLabelDesc :=
  ⟨fun a b => by
    unfold rowLEByKeyLabelDesc
    omega⟩

instance {α : Type} : IsTrans (Int × Int × α) rowLEByKeyLabelDesc :=
  ⟨fun a b c h1 h2 => by
    unfold rowLEByKeyLabelDesc at h1 h2 ⊢
    omega⟩

/-- An admissible sorting routine that reverses the order of rows with
equal objectId (it sorts by objectId ascending, ties by index label
descending): it witnesses that the sort_values contract does not pin
down the order of tied rows. -/
def tieReversingSort (α : Type) : SortRoutine α where
  sortRows l := List.insertionSort rowLEByKeyLabelDesc l
  sorted_sortRows l :=
    List.Pairwise.imp
      (fun h => h.elim le_of_lt (fun h2 => le_of_eq h2.1))
      (List.sorted_insertionSort rowLEByKeyLabelDesc l)
  perm_sortRows l := List.perm_insertionSort rowLEByKeyLabelDesc l

/-- Relabel rows consecutively starting from `i`. -/
def relabelFrom {α : Type} (i : Int) : List (Int × Int × α) → List (Int × Int × α)
  | [] => []
  | r :: rs => (i, r.2.1, r.2.2) :: relabelFrom (i + 1) rs

/-- `df.set_index(np.array(range(len(df))), inplace=True)`: the index
becomes 0, 1, ..., len - 1. -/
def setIndexRange {α : Type} (df : DFrame α) : DFrame α :=
  ⟨relabelFrom 0 df.rows⟩

/-- The integer list `i, i + 1, ..., i + n - 1`. -/
def rangeIntFrom (i : Int) : Nat → List Int
  | 0 => []
  | n + 1 => i :: rangeIntFrom (i + 1) n

/-- `sort_dataframe` of `src/04_Intro_to_Butler.ipynb` lines 1122 to
1125, over any admissible model `S` of sort_values: the frame is sorted
by the objectId column, then its index is reset to 0, 1, ..., len - 1.
The `sort_key` parameter is accepted and never used, exactly as in the
source, which always sorts by the objectId column. -/
def sort_dataframe {α : Type} (S : SortRoutine α) (df : DFrame α)
    (sort_key : String) : DFrame α :=
  setIndexRange ⟨S.sortRows df.rows⟩

/-! Helper lemmas about relabelling. -/

/-- Relabelling does not change the objectId column. -/
theorem map_rowKey_relabelFrom {α : Type} (i : Int)
    (l : List (Int × Int × α)) :
    (relabelFrom i l).map rowKey = l.map rowKey := by
  induction l generalizing i with
  | nil => rfl
  | cons r rs ih => simp [relabelFrom, rowKey, ih]

/-- Relabelling does not change the data columns of any row. -/
theorem map_snd_relabelFrom {α : Type} (i : Int)
    (l : List (Int × Int × α)) :
    (relabelFrom i l).map Prod.snd = l.map Prod.snd := by
  induction l generalizing i with
  | nil => rfl
  | cons r rs ih => simp [relabelFrom, ih]

/-- Relabelling from `i` produces the labels `i, i + 1, ...`. -/
theorem map_rowLabel_relabelFrom {α : Type} (i : Int)
    (l : List (Int × Int × α)) :
    (relabelFrom i l).map rowLabel = rangeIntFrom i l.length := by
  induction l generalizing i with
  | nil => rfl
  | cons r rs ih =>
      simp only [relabelFrom, List.map_cons, List.length_cons,
        rangeIntFrom, rowLabel, ih]

/-- `rangeIntFrom i n` is the standard range shifted by `i`. -/
theorem rangeIntFrom_eq_range_map (i : Int) (n : Nat) :
    rangeIntFrom i n = (List.range n).map (fun m => i + Int.ofNat m) := by
  induction n generalizing i with
  | zero => rfl
  | succ n ih =>
      rw [rangeIntFrom, ih, List.range_succ_eq_map, List.map_cons,
        List.map_map]
      refine congrArg₂ List.cons (by simp) ?_
      refine List.map_congr_left fun m _ => ?_
      simp only [Function.comp_apply, Int.ofNat_eq_natCast]
      push_cast
      ring

/-- Relabelling twice is the same as relabelling once. -/
theorem relabelFrom_relabelFrom {α : Type} (i j : Int)
    (l : List (Int × Int × α)) :
    relabelFrom i (relabelFrom j l) = relabelFrom i l := by
  induction l generalizing i j with
  | nil => rfl
  | cons r rs ih => simp [relabelFrom, ih]

/-- Relabelling preserves sortedness by the objectId column. -/
theorem pairwise_rowLE_relabelFrom {α : Type} (i : Int)
    (l : List (Int × Int × α)) (h : l.Pairwise rowLE) :
    (relabelFrom i l).Pairwise rowLE := by
  have h1 : (l.map rowKey).Pairwise (· ≤ ·) := List.pairwise_map.mpr h
  have h2 : ((relabelFrom i l).map rowKey).Pairwise (· ≤ ·) := by
    rw [map_rowKey_relabelFrom]
    exact h1
  have h3 := List.pairwise_map.mp h2
  exact h3

/-- A list sorted by objectId whose objectId values are distinct is
strictly sorted by objectId. -/
theorem pairwise_rowLT_of_rowLE_nodup {α : Type}
    (l : List (Int × Int × α)) (hs : l.Pairwise rowLE)
    (hn : (l.map rowKey).Nodup) : l.Pairwise rowLT := by
  have hne : l.Pairwise (fun a b => rowKey a ≠ rowKey b) :=
    List.pairwise_map.mp hn
  exact List.Pairwise.imp (fun h => lt_of_le_of_ne h.1 h.2) (hs.and hne)

/-- Any admissible sorting routine fixes a list that is already sorted
by objectId, provided the objectId values are distinct: the output is a
sorted permutation, and with distinct keys there is only one. -/
theorem sortRows_eq_of_sorted {α : Type} (S : SortRoutine α)
    (l : List (Int × Int × α)) (hs : l.Pairwise rowLE)
    (hn : (l.map rowKey).Nodup) : S.sortRows l = l := by
  have hperm := S.perm_sortRows l
  have hn2 : ((S.sortRows l).map rowKey).Nodup :=
    ((hperm.map rowKey).nodup_iff).mpr hn
  exact List.eq_of_perm_of_sorted hperm
    (pairwise_rowLT_of_rowLE_nodup _ (S.sorted_sortRows l) hn2)
    (pairwise_rowLT_of_rowLE_nodup _ hs hn)

/-! The claims. -/

/-- C1: the claim states that no function defined in the repository
computes anything beyond forwarding its arguments to external calls.
This is false: none of the six functions the repository defines is a
direct forwarder — `cutout_coadd` contains a conditional default and
centering arithmetic, `createRGB` conditional channel selection and
scaling, `sort_dataframe` three statements, `dataIdToString` a
string-building loop, `remove_figure` cleanup loops. -/
theorem claim_C1_counterexample :
    repoFunctions.all isDirectForwarding = false ∧
    (repoFunctions.map (fun f => (f.name, isDirectForwarding f)))
      = [("cutout_coadd (04_Intro_to_Butler)", false),
         ("cutout_coadd (part_002)", false),
         ("createRGB", false),
         ("sort_dataframe", false),
         ("dataIdToString", false),
         ("remove_figure", false)] :=
  ⟨rfl, rfl⟩

/-- C1 (amended): the repository's six helper functions go beyond pure
forwarding, but only by elementary glue: every call in every body
targets an external library (no repository function calls another, so
none is recursive), and no body contains a while loop. -/
theorem claim_C1_amended :
    repoFunctions.all funGlueOnly = true :=
  rfl

/-- C2: the claim states that the notebooks' only error handling is
warning suppression, with no validity checks of their own that raise.
This is false: `04_Intro_to_Butler.ipynb` asserts on the TAP service
handle (line 1156), and the corpus contains twelve more such checks. -/
theorem claim_C2_counterexample :
    onlyWarnSuppression = false ∧
    Op.isValidityCheck (Op.assertCheck "service is not None") = true ∧
    (Op.assertCheck "service is not None") ∈ butlerIntroOps :=
  ⟨rfl, rfl, by decide⟩

/-- C2 (amended): no notebook catches exceptions (there is no
try/except anywhere), but besides suppressing warnings the notebooks do
perform their own validity checks that raise: two assert statements in
the display notebook and twelve checks (eleven asserts including
assert_frame_equal, plus one job.raise_if_error) in the Butler-intro
notebook; all other exceptions propagate uncaught. -/
theorem claim_C2_amended :
    noCatchAnywhere = true ∧
    (corpusOps.map fun p => (p.1, (p.2.filter Op.isValidityCheck).length))
      = [(NB.detection, 0), (NB.display, 2), (NB.coadd, 0),
         (NB.butlerIntro, 12), (NB.lightcurve, 0)] :=
  ⟨rfl, rfl⟩

/-- C3: the claim states that no notebook operation modifies or deletes
state held by the remote service.  This is false:
`04_Intro_to_Butler.ipynb` line 1904 calls `job.delete()`, which
deletes the asynchronous query job and its results from the server. -/
theorem claim_C3_counterexample :
    allRemoteReadOnly = false ∧
    (Op.remote "job" "delete" RemoteEffect.jobDelete []) ∈ butlerIntroOps ∧
    Op.isRemoteReadOnly
      (Op.remote "job" "delete" RemoteEffect.jobDelete []) = false :=
  ⟨rfl, by decide, rfl⟩

/-- C3 (amended): every data request in the corpus is read-only with
respect to the archive's data holdings; the only operations that change
remote-service state are the Butler-intro notebook's management of its
own asynchronous TAP query job — submitting it, starting it, and
finally deleting it. -/
theorem claim_C3_amended :
    (corpusOps.map fun p =>
      (p.1, p.2.filter (fun op => !(op.isRemoteReadOnly))))
      = [(NB.detection, []), (NB.display, []), (NB.coadd, []),
         (NB.butlerIntro,
           [ Op.remote "service" "submit_job" RemoteEffect.jobCreate []
           , Op.remote "job" "run" RemoteEffect.jobControl []
           , Op.remote "job" "delete" RemoteEffect.jobDelete [] ]),
         (NB.lightcurve, [])] :=
  rfl

/-- C4: no operation anywhere in the corpus is a concurrency primitive
(threads, locks, asyncio, multiprocessing, schedulers); every operation
of the TAP asynchronous-job API occurs in the Butler-intro notebook
only; and the lifecycle calls there, in source order, are exactly the
demonstrated submit_job / run / wait / fetch_result sequence (with one
repeat of fetch_result on the re-retrieved job). -/
theorem claim_C4 :
    (corpusOps.all fun p => p.2.all fun op => !(op.isThreadPrimitive)) = true ∧
    (corpusOps.filter (fun p => p.2.any Op.isAsyncJobOp)).map Prod.fst
      = [NB.butlerIntro] ∧
    (butlerIntroOps.filter Op.isCoreAsyncLifecycle).map Op.methodName
      = ["submit_job", "run", "wait", "fetch_result", "fetch_result"] :=
  ⟨rfl, rfl, rfl⟩

/-- C5: every dataId dictionary literal constructed in the repository
and passed to Butler.get uses only the keys visit, detector, band,
tract, patch. -/
theorem claim_C5 :
    (corpusOps.all fun p => p.2.all fun op =>
      (Op.dataIdKeys op).all (fun k => allowedDataIdKeys.contains k)) = true :=
  rfl

/-- C6: in every notebook, scanning the cells in source order, each
remote data request uses a client handle obtained earlier, each
pipeline-task invocation follows some data request, and each render of
task results follows a task invocation. -/
theorem claim_C6 :
    (corpusOps.all fun p => stepOrderOk p.2) = true :=
  rfl

/-- C7: the claim states that no notebook depends on or produces a
repository-owned persisted artifact.  This is false: the lightcurve
notebook (line 533) reads the repository-provided file
data/timeseries_rband.fits. -/
theorem claim_C7_counterexample :
    noLocalPersistence = false ∧
    (Op.readLocalFile "data/timeseries_rband.fits") ∈ lightcurveOps :=
  ⟨rfl, by decide⟩

/-- C7 (amended): the notebooks hold only transient local variables,
except that the lightcurve notebook depends on one repository-provided
persisted artifact: it reads data/timeseries_rband.fits (the code that
would regenerate the file is present only as a commented-out line); no
other notebook reads or writes any local persisted file. -/
theorem claim_C7_amended :
    (corpusOps.map fun p => (p.1, p.2.filter Op.isLocalPersistence))
      = [(NB.detection, []), (NB.display, []), (NB.coadd, []),
         (NB.butlerIntro, []),
         (NB.lightcurve,
           [Op.readLocalFile "data/timeseries_rband.fits"])] :=
  rfl

/-- C8: the two `cutout_coadd` definitions are equivalent as functions:
for every abstract geometry/Butler interface and every input they
construct the same bounding box, the same coaddId, issue the same
butler.get call, and return the same cutout image. -/
theorem claim_C8 (A : LsstGeomAPI) (butler : ButlerT A)
    (ra dec : A.Flt) (band datasetType : String)
    (skymap : Option A.SkyMapT) (cutoutSideLength : A.Flt) :
    (cutout_coadd_intro A butler ra dec band datasetType skymap
        cutoutSideLength).bbox
      = (cutout_coadd_part002 A butler ra dec band datasetType skymap
        cutoutSideLength).bbox ∧
    (cutout_coadd_intro A butler ra dec band datasetType skymap
        cutoutSideLength).coaddId
      = (cutout_coadd_part002 A butler ra dec band datasetType skymap
        cutoutSideLength).coaddId ∧
    (cutout_coadd_intro A butler ra dec band datasetType skymap
        cutoutSideLength).datasetTypeUsed
      = (cutout_coadd_part002 A butler ra dec band datasetType skymap
        cutoutSideLength).datasetTypeUsed ∧
    cutout_coadd_intro A butler ra dec band datasetType skymap
        cutoutSideLength
      = cutout_coadd_part002 A butler ra dec band datasetType skymap
        cutoutSideLength :=
  ⟨rfl, rfl, rfl, rfl⟩

/-- C9: the claim states that the include-built box equals the
minimum/dimensions-constructed box of the same width and height.  This
is false at the notebook's own values xmin 1500, ymin 1900, width 400,
height 400: the include-built box spans both corners inclusively and is
401 pixels wide, while the constructor box is 400 pixels wide. -/
theorem claim_C9_counterexample :
    bboxViaInclude 1500 1900 400 400 ≠ bboxViaCtor 1500 1900 400 400 ∧
    (bboxViaInclude 1500 1900 400 400).getWidth = 401 ∧
    (bboxViaCtor 1500 1900 400 400).getWidth = 400 :=
  ⟨by decide, by decide, by decide⟩

/-- C9 (amended): for positive width and height, the box built by the
two include calls has the same minimum corner but is one pixel larger
in each dimension: it equals Box2I(Point2I(xmin, ymin),
Extent2I(width + 1, height + 1)), and its width and height exceed those
of Box2I(Point2I(xmin, ymin), Extent2I(width, height)) by exactly one. -/
theorem claim_C9_amended (xmin ymin width height : Int)
    (hw : 0 < width) (hh : 0 < height) :
    bboxViaInclude xmin ymin width height
      = Box2I.fromMinAndDims xmin ymin (width + 1) (height + 1) ∧
    (bboxViaInclude xmin ymin width height).getWidth
      = (bboxViaCtor xmin ymin width height).getWidth + 1 ∧
    (bboxViaInclude xmin ymin width height).getHeight
      = (bboxViaCtor xmin ymin width height).getHeight + 1 := by
  have h1 : bboxViaInclude xmin ymin width height
      = Box2I.box xmin ymin (xmin + width) (ymin + height) := by
    show Box2I.box (min xmin (xmin + width)) (min ymin (ymin + height))
        (max xmin (xmin + width)) (max ymin (ymin + height))
      = Box2I.box xmin ymin (xmin + width) (ymin + height)
    rw [Box2I.box.injEq]
    refine ⟨?_, ?_, ?_, ?_⟩ <;> omega
  have hne : ¬(width + 1 = 0 ∨ height + 1 = 0) := by omega
  have hwp : 0 < width + 1 := by omega
  have hhp : 0 < height + 1 := by omega
  have h2 : Box2I.fromMinAndDims xmin ymin (width + 1) (height + 1)
      = Box2I.box xmin ymin (xmin + width) (ymin + height) := by
    simp only [Box2I.fromMinAndDims, intervalFromDim, if_neg hne,
      if_pos hwp, if_pos hhp]
    rw [Box2I.box.injEq]
    refine ⟨rfl, rfl, by ring, by ring⟩
  have hne0 : ¬(width = 0 ∨ height = 0) := by omega
  have h3 : bboxViaCtor xmin ymin width height
      = Box2I.box xmin ymin (xmin + width - 1) (ymin + height - 1) := by
    simp only [bboxViaCtor, Box2I.fromMinAndDims, intervalFromDim,
      if_neg hne0, if_pos hw, if_pos hh]
  refine ⟨h1.trans h2.symm, ?_, ?_⟩
  · rw [h1, h3]
    simp only [Box2I.getWidth]
    ring
  · rw [h1, h3]
    simp only [Box2I.getHeight]
    ring

/-- C9 (witness): the amended statement at the notebook's values. -/
theorem claim_C9_witness :
    (0 : Int) < 400 ∧ (0 : Int) < 400 ∧
    (bboxViaInclude 1500 1900 400 400
        = Box2I.fromMinAndDims 1500 1900 401 401 ∧
      (bboxViaInclude 1500 1900 400 400).getWidth
        = (bboxViaCtor 1500 1900 400 400).getWidth + 1 ∧
      (bboxViaInclude 1500 1900 400 400).getHeight
        = (bboxViaCtor 1500 1900 400 400).getHeight + 1) :=
  ⟨by decide, by decide,
    claim_C9_amended 1500 1900 400 400 (by decide) (by decide)⟩

/-- C10: the claim asserts unconditional idempotence of sort_dataframe.
The source sorts with pandas sort_values in its default kind=quicksort,
which the pandas documentation does not promise to be stable, so the
order of rows with equal objectId after sorting is unspecified.  Under
an admissible model of that contract which orders tied rows by index
label descending, idempotence fails on a two-row dataframe whose rows
share objectId 5: the two tied rows swap on every application. -/
theorem claim_C10_counterexample :
    sort_dataframe (tieReversingSort Int)
        (sort_dataframe (tieReversingSort Int)
          (⟨[(0, 5, 1), (1, 5, 2)]⟩ : DFrame Int) "objectid")
        "objectid"
      ≠ sort_dataframe (tieReversingSort Int)
          (⟨[(0, 5, 1), (1, 5, 2)]⟩ : DFrame Int) "objectid" ∧
    sort_dataframe (tieReversingSort Int)
        (⟨[(0, 5, 1), (1, 5, 2)]⟩ : DFrame Int) "objectid"
      = ⟨[(0, 5, 2), (1, 5, 1)]⟩ :=
  ⟨by decide, by decide⟩

/-- C10 (amended): for every admissible model of sort_values (output
sorted by objectId and a permutation of the input rows, tie order
unspecified), sort_dataframe ignores its sort_key parameter — any two
keys give equal results; the result has its objectId column sorted,
its rows (index labels aside) a permutation of the input rows, and its
index reset to 0, 1, ..., len - 1; and the function is idempotent on
every dataframe whose objectId values are distinct (unconditional
idempotence for dataframes with duplicate objectId values is not
guaranteed by the code, as the counterexample shows). -/
theorem claim_C10_amended {α : Type} (S : SortRoutine α) (df : DFrame α)
    (k1 k2 : String) :
    sort_dataframe S df k1 = sort_dataframe S df k2 ∧
    List.Sorted (· ≤ ·) ((sort_dataframe S df k1).rows.map rowKey) ∧
    (sort_dataframe S df k1).rows.map rowLabel
      = (List.range df.rows.length).map Int.ofNat ∧
    ((sort_dataframe S df k1).rows.map Prod.snd).Perm
      (df.rows.map Prod.snd) ∧
    ((df.rows.map rowKey).Nodup →
      sort_dataframe S (sort_dataframe S df k1) k2
        = sort_dataframe S df k1) := by
  refine ⟨rfl, ?_, ?_, ?_, ?_⟩
  · have h1 : ((S.sortRows df.rows).map rowKey).Pairwise (· ≤ ·) :=
      List.pairwise_map.mpr (S.sorted_sortRows df.rows)
    show List.Sorted (· ≤ ·)
      ((relabelFrom 0 (S.sortRows df.rows)).map rowKey)
    rw [map_rowKey_relabelFrom]
    exact h1
  · show (relabelFrom 0 (S.sortRows df.rows)).map rowLabel = _
    rw [map_rowLabel_relabelFrom]
    have hlen : (S.sortRows df.rows).length = df.rows.length :=
      (S.perm_sortRows df.rows).length_eq
    rw [hlen, rangeIntFrom_eq_range_map]
    refine List.map_congr_left fun m _ => ?_
    omega
  · show ((relabelFrom 0 (S.sortRows df.rows)).map Prod.snd).Perm
      (df.rows.map Prod.snd)
    rw [map_snd_relabelFrom]
    exact (S.perm_sortRows df.rows).map Prod.snd
  · intro hn
    have hnl : ((S.sortRows df.rows).map rowKey).Nodup :=
      (((S.perm_sortRows df.rows).map rowKey).nodup_iff).mpr hn
    have hnm : ((relabelFrom 0 (S.sortRows df.rows)).map rowKey).Nodup := by
      rw [map_rowKey_relabelFrom]
      exact hnl
    have hsm : (relabelFrom 0 (S.sortRows df.rows)).Pairwise rowLE :=
      pairwise_rowLE_relabelFrom 0 _ (S.sorted_sortRows df.rows)
    have heq : S.sortRows (relabelFrom 0 (S.sortRows df.rows))
        = relabelFrom 0 (S.sortRows df.rows) :=
      sortRows_eq_of_sorted S _ hsm hnm
    show DFrame.mk (relabelFrom 0
        (S.sortRows (relabelFrom 0 (S.sortRows df.rows))))
      = DFrame.mk (relabelFrom 0 (S.sortRows df.rows))
    rw [heq, relabelFrom_relabelFrom]

/-- C10 (witness): the amended statement exercised at a concrete
dataframe with distinct objectId values (7 and 2) under the
tie-reversing admissible model, discharging the distinctness
hypothesis of the idempotence part. -/
theorem claim_C10_witness :
    (([((3 : Int), (7 : Int), (0 : Int)), (9, 2, 0)].map rowKey).Nodup) ∧
    sort_dataframe (tieReversingSort Int)
        (sort_dataframe (tieReversingSort Int)
          (⟨[(3, 7, 0), (9, 2, 0)]⟩ : DFrame Int) "a") "b"
      = sort_dataframe (tieReversingSort Int)
          (⟨[(3, 7, 0), (9, 2, 0)]⟩ : DFrame Int) "a" :=
  ⟨by decide,
    (claim_C10_amended (tieReversingSort Int)
      (⟨[(3, 7, 0), (9, 2, 0)]⟩ : DFrame Int) "a" "b").2.2.2.2 (by decide)⟩

end TutorialNotebooks
